import Mathlib

/-!
Shallow embedding of `transcalmod.py` (module `transcalmod`), a 1D fin
heat-conduction solver plus a lumped thermal-resistance calculator.

The sympy expressions the Python code manipulates are embedded as the
inductive type `Expr`; the two external sympy algorithms the code calls
(`dsolve`, producing the general solution of the assembled ODE, and
`solve`, producing a substitution for the integration constants) are
treated as oracle parameters, since they are library code outside the
repository.  Python numeric scalars versus sympy expressions are embedded
as `PyVal`; Python exceptions are embedded as `PyError`; text printed to
the console is embedded as `Printed` tags.
-/

namespace Transcalmod

/-- Name of the position symbol `x` created in `Fin_1D_Model.__init__`. -/
def xName : String := "x"

/-- Name of the second integration constant `C2` referenced in the
`infinitely_long_fin` branch of `solve`. -/
def c2Name : String := "C2"

/-- Name of the first integration constant `C1` of the general solution. -/
def c1Name : String := "C1"

/-- Boundary-condition selector literal. -/
def bc_tip_convection : String := "tip_convection"

/-- Boundary-condition selector literal. -/
def bc_infinitely_long_fin : String := "infinitely_long_fin"

/-- Boundary-condition selector literal. -/
def bc_adiabatic_tip : String := "adiabatic_tip"

/-- Boundary-condition selector literal. -/
def bc_tip_defined_temperature : String := "tip_defined_temperature"

/-- Resistance mechanism literal. -/
def mech_contact : String := "contact"

/-- Resistance mechanism literal. -/
def mech_convection : String := "convection"

/-- Resistance mechanism literal. -/
def mech_radiation : String := "radiation"

/-- Resistance mechanism literal. -/
def mech_conduction : String := "conduction"

/-- Conduction direction literal. -/
def dir_axial : String := "axial"

/-- Conduction direction literal. -/
def dir_cylinder_radial : String := "cylinder_radial"

/-- Conduction direction literal. -/
def dir_sphere_radial : String := "sphere_radial"

/-- Symbolic expressions, mirroring the sympy expressions manipulated by
the Python module.  `num` holds numeric constants, `sym` holds named sympy
symbols (such as `x`, `C1`, `C2`), and `tfun n a` stands for the n-th
derivative of the unknown temperature function applied to argument `a`
(so `tfun 0 (sym xName)` embeds `T(x)` and `tfun 2 (sym xName)` embeds
`Derivative(T(x), x, 2)`). -/
inductive Expr where
  | num (q : ℚ)
  | sym (s : String)
  | tfun (n : ℕ) (a : Expr)
  | add (a b : Expr)
  | sub (a b : Expr)
  | mul (a b : Expr)
deriving DecidableEq

/-- Symbolic differentiation with respect to the position symbol `x`,
embedding the sympy `diff` calls in `solve` and `get_heat_transfer`.
Symbols other than `x` (such as the integration constants) have zero
derivative; the unknown function obeys the chain rule. -/
def ediff : Expr → Expr
  | .num _ => .num 0
  | .sym s => if s = xName then .num 1 else .num 0
  | .tfun n a => .mul (.tfun (n + 1) a) (ediff a)
  | .add a b => .add (ediff a) (ediff b)
  | .sub a b => .sub (ediff a) (ediff b)
  | .mul a b => .add (.mul (ediff a) b) (.mul a (ediff b))

/-- Substitution of a symbol by an expression, embedding sympy `subs`
with a one-entry dictionary. -/
def subst (s : String) (v : Expr) : Expr → Expr
  | .num q => .num q
  | .sym t => if t = s then v else .sym t
  | .tfun n a => .tfun n (subst s v a)
  | .add a b => .add (subst s v a) (subst s v b)
  | .sub a b => .sub (subst s v a) (subst s v b)
  | .mul a b => .mul (subst s v a) (subst s v b)

/-- Sequential substitution of several symbols, embedding sympy `subs`
applied to the constants mapping returned by the equation solver. -/
def substList (cs : List (String × Expr)) (e : Expr) : Expr :=
  cs.foldl (fun acc c => subst c.1 c.2 acc) e

/-- Evaluation of an embedded expression at a valuation `rho` of the
symbols and an interpretation `Tf` of the unknown function and its
derivatives (`Tf n a` is the value of the n-th derivative at `a`). -/
def evalE (rho : String → ℚ) (Tf : ℕ → ℚ → ℚ) : Expr → ℚ
  | .num q => q
  | .sym s => rho s
  | .tfun n a => Tf n (evalE rho Tf a)
  | .add a b => evalE rho Tf a + evalE rho Tf b
  | .sub a b => evalE rho Tf a - evalE rho Tf b
  | .mul a b => evalE rho Tf a * evalE rho Tf b

/-- A parameter value held by the model object: either a plain Python
number (numeric inputs are stored unchanged by `_check_data`) or a sympy
expression. -/
inductive PyVal where
  | num (q : ℚ)
  | expr (e : Expr)
deriving DecidableEq

/-- Coercion of a stored parameter into the sympy expression it denotes,
as happens implicitly when Python arithmetic mixes numbers with sympy
expressions. -/
def toExpr : PyVal → Expr
  | .num q => .num q
  | .expr e => e

/-- Python multiplication of two stored parameters: two plain numbers
multiply to a plain number, any sympy operand produces a sympy product. -/
def pyMul : PyVal → PyVal → PyVal
  | .num a, .num b => .num (a * b)
  | a, b => .expr (.mul (toExpr a) (toExpr b))

/-- Python subtraction of two stored parameters, analogous to `pyMul`. -/
def pySub : PyVal → PyVal → PyVal
  | .num a, .num b => .num (a - b)
  | a, b => .expr (.sub (toExpr a) (toExpr b))

/-- Python multiplication of a stored parameter by a sympy expression;
the result is always a sympy product. -/
def pyMulE (v : PyVal) (e : Expr) : Expr := .mul (toExpr v) e

/-- Python exceptions raised by the embedded code paths. -/
inductive PyError where
  | nameError
  | attributeError
  | typeError
  | keyError
deriving DecidableEq

/-- Console messages printed by the module, embedded as tags. -/
inductive Printed where
  | unsupportedBoundaryCondition
  | modelSolved
  | positionOutOfFin
  | noFinHere
  | negativePosition
deriving DecidableEq

/-- The extra-data dictionary of a conduction resistance specification;
a missing key embeds as `none` and reading it raises `KeyError`. -/
structure CondData where
  length : Option ℚ
  angle : Option ℚ
  R_inner : Option ℚ
  R_outter : Option ℚ
deriving DecidableEq

/-- Reading a key from the extra-data dictionary: `KeyError` if absent. -/
def getKey : Option ℚ → Except PyError ℚ
  | some q => .ok q
  | none => .error .keyError

/-- Embedding of `_thermal_resistance_1D_calculations`.  The external
functions `numpy.log` and `numpy.pi` are passed in as `lnf` and `piv`.
The two unsupported fallthrough branches print a message and return
`None`, embedded as `.ok none`.  Note that ℚ division is total with
`x / 0 = 0`, whereas Python raises ZeroDivisionError on a zero
denominator; theorems about this function therefore keep every
denominator nonzero through their hypotheses. -/
def thermal_resistance_1D_calculations (lnf : ℚ → ℚ) (piv : ℚ)
    (mechanism direction : String) (area thermal_coefficient : ℚ)
    (data : CondData) : Except PyError (Option ℚ) :=
  if mechanism = mech_contact ∨ mechanism = mech_convection ∨ mechanism = mech_radiation then
    .ok (some (1 / (area * thermal_coefficient)))
  else if mechanism = mech_conduction then
    if direction = dir_axial then do
      let len ← getKey data.length
      .ok (some (len / (area * thermal_coefficient)))
    else if direction = dir_cylinder_radial then do
      let ang ← getKey data.angle
      let len ← getKey data.length
      let ro ← getKey data.R_outter
      let ri ← getKey data.R_inner
      .ok (some ((1 / (thermal_coefficient * ang * len)) * lnf (ro / ri)))
    else if direction = dir_sphere_radial then do
      let ro ← getKey data.R_outter
      let ri ← getKey data.R_inner
      .ok (some (((ro - ri) / (ro * ri)) / (4 * piv * thermal_coefficient)))
    else
      .ok none
  else
    .ok none

/-- The state of a `Fin_1D_Model` instance: the attributes assigned by
`__init__` (besides the symbols `x` and `T`).  `T_sol` starts as the
plain number `0`, the unsolved sentinel set on the last line of
`__init__`, and only `solve` ever reassigns it. -/
structure Fin_1D_Model where
  k : PyVal
  h : PyVal
  T_base : PyVal
  T_inf : PyVal
  A : PyVal
  p : PyVal
  L : PyVal
  Lc : PyVal
  T_sol : PyVal
deriving DecidableEq

/-- The Python attribute names assigned on `self` by `__init__`; no other
method of the class assigns a new attribute (`solve` only reassigns
`T_sol`). -/
def finInstanceAttrs : List String :=
  [r"x", r"T", r"k", r"h", r"T_base", r"T_inf", r"A", r"p", r"L", r"Lc", r"T_sol"]

/-- The attribute name read by the out-of-range branch of
`get_temperature`. -/
def lengthAttrName : String := "length"

/-- Whether a `Fin_1D_Model` instance has an attribute named `length`;
reading a missing attribute raises `AttributeError`. -/
def finHasLengthAttr : Bool := finInstanceAttrs.contains lengthAttrName

/-- A numeric-literal or string parameter value as passed to the
constructor dictionaries. -/
inductive PyInput where
  | pnum (q : ℚ)
  | pstr (s : String)
deriving DecidableEq

/-- The names bound in the module global namespace of `transcalmod.py`:
the three import lines plus the module-level definitions.  Note that
`sympify` is not among them. -/
def moduleGlobalNames : List String :=
  [r"draw", r"figure", r"pi", r"log", r"arange", r"symbols", r"Function",
   r"dsolve", r"solve", r"integrate", r"lambdify", r"thermal_resistance_1D",
   r"_thermal_resistance_1D_calculations", r"Fin_1D_Model"]

/-- The name looked up by the string branch of `_check_data`. -/
def sympifyName : String := "sympify"

/-- Embedding of the per-value behavior of `_check_data`: numeric values
are stored unchanged; a string value calls `sympify`, whose name lookup
fails with `NameError` because it is never imported.  (The success branch
is unreachable; `.sym s` is a placeholder for the parse of `s`.) -/
def check_data_value : PyInput → Except PyError PyVal
  | .pnum q => .ok (.num q)
  | .pstr s =>
      if moduleGlobalNames.contains sympifyName then
        .ok (.expr (.sym s))
      else
        .error .nameError

/-- The `physics_data` constructor dictionary, keys in insertion order. -/
structure PhysicsData where
  k : PyInput
  h : PyInput
  T_base : PyInput
  T_env : PyInput
deriving DecidableEq

/-- The `geometry_data` constructor dictionary, keys in insertion order. -/
structure GeometryData where
  cross_area : PyInput
  perimeter : PyInput
  length : PyInput
deriving DecidableEq

/-- Embedding of `Fin_1D_Model.__init__`: `_check_data` over both
dictionaries in order, then `Lc` and `T_sol` set to the number `0`. -/
def Fin_1D_Model.init (phys : PhysicsData) (geo : GeometryData) :
    Except PyError Fin_1D_Model := do
  let k ← check_data_value phys.k
  let h ← check_data_value phys.h
  let tb ← check_data_value phys.T_base
  let ti ← check_data_value phys.T_env
  let a ← check_data_value geo.cross_area
  let pp ← check_data_value geo.perimeter
  let l ← check_data_value geo.length
  .ok { k := k, h := h, T_base := tb, T_inf := ti, A := a, p := pp, L := l,
        Lc := .num 0, T_sol := .num 0 }

/-- Embedding of the governing equation assembled on the first line of
`solve`: `self.k*self.A*self.T.diff(self.x,2) - self.h*self.p*self.T +
self.h*self.p*self.T_inf`, with the Python association and
number-versus-expression coercions of the source. -/
def finEquation (st : Fin_1D_Model) : Expr :=
  .add (.sub (pyMulE (pyMul st.k st.A) (.tfun 2 (.sym xName)))
             (pyMulE (pyMul st.h st.p) (.tfun 0 (.sym xName))))
       (toExpr (pyMul (pyMul st.h st.p) st.T_inf))

/-- Embedding of the boundary-condition dispatch in `solve`: given the
general solution `G` returned by `dsolve`, each branch produces the
(possibly updated) solution expression, the equation system `system_eq`,
and the messages printed by the branch.  The final branch mirrors the
`else` of the source: it prints the unsupported message, leaves
`system_eq` empty, and execution continues. -/
def solveDispatch (st : Fin_1D_Model) (G : Expr) (bc : String) (tip : ℚ) :
    Expr × List Expr × List Printed :=
  if bc = bc_tip_convection then
    (G,
     [.sub (.add (pyMulE st.k (subst xName (toExpr st.L) (ediff G)))
                 (pyMulE st.h (subst xName (toExpr st.L) G)))
           (toExpr (pyMul st.h st.T_inf)),
      .sub (subst xName (.num 0) G) (toExpr st.T_base)],
     [])
  else if bc = bc_infinitely_long_fin then
    (subst c2Name (.num 0) G,
     [.sub (subst xName (.num 0) (subst c2Name (.num 0) G)) (toExpr st.T_base)],
     [])
  else if bc = bc_adiabatic_tip then
    (G,
     [.sub (subst xName (.num 0) G) (toExpr st.T_base),
      subst xName (toExpr st.L) (ediff G)],
     [])
  else if bc = bc_tip_defined_temperature then
    (G,
     [.sub (subst xName (.num 0) G) (toExpr st.T_base),
      .sub (subst xName (toExpr st.L) G) (.num tip)],
     [])
  else
    (G, [], [.unsupportedBoundaryCondition])

/-- Embedding of `Fin_1D_Model.solve`.  The external sympy calls are
oracle parameters: `dsolveO` maps the assembled equation to the right
hand side of the general solution (`sol_family.args[1]`), and `solverO`
maps the equation system to the constants substitution returned by sympy
`solve`.  Whatever the branch, the method then substitutes the constants
into the branch solution, stores it in `T_sol`, and prints
`Model solved.` -/
def Fin_1D_Model.solve (st : Fin_1D_Model) (dsolveO : Expr → Expr)
    (solverO : List Expr → List (String × Expr)) (bc : String) (tip : ℚ) :
    Fin_1D_Model × List Printed :=
  let G := dsolveO (finEquation st)
  let d := solveDispatch st G bc tip
  let constants := solverO d.2.1
  ({ st with T_sol := .expr (substList constants d.1) }, d.2.2 ++ [.modelSolved])

/-- The value returned by `get_heat_transfer`: either a sympy scalar or
the definite integral produced by the sympy `integrate` call, kept as an
inert term (the symbolic antidifferentiation is external sympy code). -/
inductive HeatRet where
  | val (v : PyVal)
  | integ (body : Expr) (lo hi : ℚ)
deriving DecidableEq

/-- Embedding of `Fin_1D_Model.get_heat_transfer`.  A symbolic length
makes the comparison with `position` raise `TypeError`; calling `.diff`
on the numeric unsolved sentinel raises `AttributeError`. -/
def Fin_1D_Model.get_heat_transfer (st : Fin_1D_Model) (position : ℚ) :
    Except PyError (List Printed × Option HeatRet) :=
  match st.L with
  | .expr _ => .error .typeError
  | .num l =>
    if position > l ∨ position < 0 then
      .ok ([.positionOutOfFin], none)
    else if position = 0 then
      match st.T_sol with
      | .num _ => .error .attributeError
      | .expr e =>
          .ok ([], some (.val (pyMul (pyMul st.k st.A)
            (.expr (subst xName (.num position) (ediff e))))))
    else
      .ok ([], some (.integ
        (toExpr (pyMul (pyMul st.h st.p) (pySub st.T_inf st.T_sol))) 0 position))

/-- Embedding of `Fin_1D_Model.get_temperature`.  The `position > L`
branch formats a message that reads `self.length`, an attribute the class
never defines, so it raises `AttributeError` before printing; the
negative branch prints and returns `None`; otherwise `.subs` on the
numeric unsolved sentinel raises `AttributeError`. -/
def Fin_1D_Model.get_temperature (st : Fin_1D_Model) (position : ℚ) :
    Except PyError (List Printed × Option PyVal) :=
  match st.L with
  | .expr _ => .error .typeError
  | .num l =>
    if position > l then
      if finHasLengthAttr then .ok ([.noFinHere], none)
      else .error .attributeError
    else if position < 0 then
      .ok ([.negativePosition], none)
    else
      match st.T_sol with
      | .num _ => .error .attributeError
      | .expr e => .ok ([], some (.expr (subst xName (.num position) e)))

/-- Rendering steps performed by `get_temperature_profile`, embedded as
tags: figure creation, the `ax.plot` call (recording the sample positions
and the lambdified solution), and the final `draw()`. -/
inductive PlotEff where
  | newFigure
  | plotLine (xs : List ℚ) (f : PyVal)
  | drawCall
deriving DecidableEq

/-- Embedding of `numpy.arange(start, stop, step)` for a positive step:
`ceil((stop - start)/step)` samples `start + i*step`.  (A nonpositive
step yields the empty array for the ranges used here.) -/
def arange (start stop step : ℚ) : List ℚ :=
  if 0 < step then
    (List.range (⌈(stop - start) / step⌉.toNat)).map
      (fun i : ℕ => start + (i : ℚ) * step)
  else []

/-- Embedding of `Fin_1D_Model.get_temperature_profile`: it creates a
figure, plots the lambdified `T_sol` against `arange(0, L, L/1000)`, and
calls `draw()`; the function body has no return statement, so the value
returned to the caller is `None`. -/
def Fin_1D_Model.get_temperature_profile (st : Fin_1D_Model) :
    Except PyError (List PlotEff × Option PyVal) :=
  match st.L with
  | .expr _ => .error .typeError
  | .num l =>
      .ok ([.newFigure, .plotLine (arange 0 l (l / 1000)) st.T_sol, .drawCall], none)

/-- Evaluation of a stored parameter under a valuation, used to state the
specification-side boundary conditions. -/
def pv (rho : String → ℚ) (Tf : ℕ → ℚ → ℚ) (v : PyVal) : ℚ :=
  evalE rho Tf (toExpr v)

/-- Joint satisfaction of an equation system: every residual vanishes. -/
def sysHolds (rho : String → ℚ) (Tf : ℕ → ℚ → ℚ) (sys : List Expr) : Prop :=
  ∀ e ∈ sys, evalE rho Tf e = 0

/-- Specification-side base condition, from the spec wording
`T(0) = T_base`. -/
def specBaseCond (rho : String → ℚ) (Tf : ℕ → ℚ → ℚ)
    (st : Fin_1D_Model) (G : Expr) : Prop :=
  evalE rho Tf (subst xName (.num 0) G) = pv rho Tf st.T_base

/-- Specification-side convective tip condition, from the spec wording
`k·T′(L) + h·T(L) = h·T_env`. -/
def specTipConvCond (rho : String → ℚ) (Tf : ℕ → ℚ → ℚ)
    (st : Fin_1D_Model) (G : Expr) : Prop :=
  pv rho Tf st.k * evalE rho Tf (subst xName (toExpr st.L) (ediff G))
    + pv rho Tf st.h * evalE rho Tf (subst xName (toExpr st.L) G)
    = pv rho Tf st.h * pv rho Tf st.T_inf

/-- Specification-side adiabatic tip condition, from the spec wording
`T′(L) = 0`. -/
def specAdiabCond (rho : String → ℚ) (Tf : ℕ → ℚ → ℚ)
    (st : Fin_1D_Model) (G : Expr) : Prop :=
  evalE rho Tf (subst xName (toExpr st.L) (ediff G)) = 0

/-- Specification-side defined tip temperature condition, from the spec
wording `T(L) = tip_temperature`. -/
def specTipTempCond (rho : String → ℚ) (Tf : ℕ → ℚ → ℚ)
    (st : Fin_1D_Model) (G : Expr) (tip : ℚ) : Prop :=
  evalE rho Tf (subst xName (toExpr st.L) G) = tip

/-- A concrete solved model used by witnesses and counterexamples: all
constant parameters, length 1, and solved temperature `x`. -/
def stSolved : Fin_1D_Model :=
  { k := .num 1, h := .num 1, T_base := .num 2, T_inf := .num 0,
    A := .num 1, p := .num 1, L := .num 1, Lc := .num 0,
    T_sol := .expr (.sym xName) }

/-- A concrete freshly constructed model: as `stSolved` but with the
unsolved sentinel `0` in `T_sol`. -/
def stFresh : Fin_1D_Model := { stSolved with T_sol := .num 0 }

/-- A boundary-condition name outside the four supported literals. -/
def bcBogus : String := "bogus"

/-- A concrete `dsolve` oracle for counterexamples: the general solution
is the symbol `C1`. -/
def dsolveConst : Expr → Expr := fun _ => .sym c1Name

/-- A concrete constants-solver oracle agreeing with sympy `solve` on the
empty system: `solve([])` returns the empty substitution. -/
def solverEmpty : List Expr → List (String × Expr) := fun _ => []

/-- The empty direction string used for non-conduction mechanisms. -/
def dir_none : String := ""

/-- The attribute name under which the constructor stores the length. -/
def lAttrName : String := "L"

/-- A numeric constant written as a string, for the construction
round-trip scenario. -/
def str3 : String := "3"

theorem evalE_toExpr_pyMul (rho : String → ℚ) (Tf : ℕ → ℚ → ℚ) (a b : PyVal) :
    evalE rho Tf (toExpr (pyMul a b)) =
      evalE rho Tf (toExpr a) * evalE rho Tf (toExpr b) := by
  cases a <;> cases b <;> simp [pyMul, toExpr, evalE]

theorem evalE_toExpr_pySub (rho : String → ℚ) (Tf : ℕ → ℚ → ℚ) (a b : PyVal) :
    evalE rho Tf (toExpr (pySub a b)) =
      evalE rho Tf (toExpr a) - evalE rho Tf (toExpr b) := by
  cases a <;> cases b <;> simp [pySub, toExpr, evalE]

/-- C1: for every model, `solve` assembles the governing fin equation
k·A·T″(x) − h·p·T(x) + h·p·T_env = 0, obtains the general solution by
applying the ODE solver to exactly that assembled equation, and pins the
integration constants by solving exactly the equation family of the
selected boundary condition: tip_convection uses T(0) = T_base and
k·T′(L) + h·T(L) = h·T_env; infinitely_long_fin sets C2 = 0 and then
T(0) = T_base; adiabatic_tip uses T(0) = T_base and T′(L) = 0;
tip_defined_temperature uses T(0) = T_base and T(L) = tip_temperature. -/
theorem solve_boundary_condition_families
    (st : Fin_1D_Model) (G : Expr) (tip : ℚ)
    (rho : String → ℚ) (Tf : ℕ → ℚ → ℚ)
    (dsolveO : Expr → Expr) (solverO : List Expr → List (String × Expr))
    (bc : String) :
    (evalE rho Tf (finEquation st) =
      pv rho Tf st.k * pv rho Tf st.A * Tf 2 (rho xName)
        - pv rho Tf st.h * pv rho Tf st.p * Tf 0 (rho xName)
        + pv rho Tf st.h * pv rho Tf st.p * pv rho Tf st.T_inf)
    ∧ ((st.solve dsolveO solverO bc tip).1.T_sol =
        .expr (substList (solverO (solveDispatch st (dsolveO (finEquation st)) bc tip).2.1)
          (solveDispatch st (dsolveO (finEquation st)) bc tip).1))
    ∧ ((solveDispatch st G bc_tip_convection tip).1 = G
        ∧ (solveDispatch st G bc_tip_convection tip).2.1.length = 2
        ∧ (sysHolds rho Tf (solveDispatch st G bc_tip_convection tip).2.1 ↔
            specBaseCond rho Tf st G ∧ specTipConvCond rho Tf st G))
    ∧ ((solveDispatch st G bc_infinitely_long_fin tip).1 = subst c2Name (.num 0) G
        ∧ (solveDispatch st G bc_infinitely_long_fin tip).2.1.length = 1
        ∧ (sysHolds rho Tf (solveDispatch st G bc_infinitely_long_fin tip).2.1 ↔
            specBaseCond rho Tf st (subst c2Name (.num 0) G)))
    ∧ ((solveDispatch st G bc_adiabatic_tip tip).1 = G
        ∧ (solveDispatch st G bc_adiabatic_tip tip).2.1.length = 2
        ∧ (sysHolds rho Tf (solveDispatch st G bc_adiabatic_tip tip).2.1 ↔
            specBaseCond rho Tf st G ∧ specAdiabCond rho Tf st G))
    ∧ ((solveDispatch st G bc_tip_defined_temperature tip).1 = G
        ∧ (solveDispatch st G bc_tip_defined_temperature tip).2.1.length = 2
        ∧ (sysHolds rho Tf (solveDispatch st G bc_tip_defined_temperature tip).2.1 ↔
            specBaseCond rho Tf st G ∧ specTipTempCond rho Tf st G tip)) := by
  refine ⟨?_, rfl, ?_, ?_, ?_, ?_⟩
  · simp only [finEquation, evalE, pyMulE, pv, evalE_toExpr_pyMul]
  · have hd : solveDispatch st G bc_tip_convection tip =
        (G,
         [.sub (.add (pyMulE st.k (subst xName (toExpr st.L) (ediff G)))
                     (pyMulE st.h (subst xName (toExpr st.L) G)))
               (toExpr (pyMul st.h st.T_inf)),
          .sub (subst xName (.num 0) G) (toExpr st.T_base)],
         []) := rfl
    rw [hd]
    refine ⟨rfl, rfl, ?_⟩
    simp [sysHolds, List.forall_mem_cons, specBaseCond, specTipConvCond,
      evalE, pyMulE, pv, evalE_toExpr_pyMul, sub_eq_zero] <;> tauto
  · have hd : solveDispatch st G bc_infinitely_long_fin tip =
        (subst c2Name (.num 0) G,
         [.sub (subst xName (.num 0) (subst c2Name (.num 0) G)) (toExpr st.T_base)],
         []) := rfl
    rw [hd]
    refine ⟨rfl, rfl, ?_⟩
    simp [sysHolds, List.forall_mem_cons, specBaseCond, evalE, pv, sub_eq_zero]
  · have hd : solveDispatch st G bc_adiabatic_tip tip =
        (G,
         [.sub (subst xName (.num 0) G) (toExpr st.T_base),
          subst xName (toExpr st.L) (ediff G)],
         []) := rfl
    rw [hd]
    refine ⟨rfl, rfl, ?_⟩
    simp [sysHolds, List.forall_mem_cons, specBaseCond, specAdiabCond,
      evalE, pv, sub_eq_zero]
  · have hd : solveDispatch st G bc_tip_defined_temperature tip =
        (G,
         [.sub (subst xName (.num 0) G) (toExpr st.T_base),
          .sub (subst xName (toExpr st.L) G) (.num tip)],
         []) := rfl
    rw [hd]
    refine ⟨rfl, rfl, ?_⟩
    simp [sysHolds, List.forall_mem_cons, specBaseCond, specTipTempCond,
      evalE, pv, sub_eq_zero]

/-- C2: for every solved model and position in [0, L], `get_heat_transfer`
returns `k*A*T_sol′(0)` at position 0 (substituting x = 0 into the
derivative of the solved temperature), and for 0 < position ≤ L it
returns the definite integral of `h*p*(T_env − T_sol(x))` over
[0, position]. -/
theorem get_heat_transfer_formulas
    (st : Fin_1D_Model) (l : ℚ) (e : Expr) (position : ℚ)
    (rho : String → ℚ) (Tf : ℕ → ℚ → ℚ)
    (hL : st.L = .num l) (hsol : st.T_sol = .expr e)
    (h0 : 0 ≤ position) (hl : position ≤ l) :
    (position = 0 →
      st.get_heat_transfer position =
        .ok ([], some (.val (pyMul (pyMul st.k st.A)
          (.expr (subst xName (.num position) (ediff e)))))))
    ∧ (0 < position →
      st.get_heat_transfer position =
        .ok ([], some (.integ
          (toExpr (pyMul (pyMul st.h st.p) (pySub st.T_inf (.expr e)))) 0 position)))
    ∧ (evalE rho Tf (toExpr (pyMul (pyMul st.h st.p) (pySub st.T_inf (.expr e)))) =
        pv rho Tf st.h * pv rho Tf st.p * (pv rho Tf st.T_inf - evalE rho Tf e))
    ∧ (∀ v : PyVal,
        pv rho Tf (pyMul (pyMul st.k st.A) v) =
          pv rho Tf st.k * pv rho Tf st.A * pv rho Tf v) := by
  have hnot : ¬(position > l ∨ position < 0) := by
    push_neg
    exact ⟨hl, h0⟩
  have key : st.get_heat_transfer position =
      (if position > l ∨ position < 0 then .ok ([.positionOutOfFin], none)
       else if position = 0 then
         .ok ([], some (.val (pyMul (pyMul st.k st.A)
           (.expr (subst xName (.num position) (ediff e))))))
       else .ok ([], some (.integ
         (toExpr (pyMul (pyMul st.h st.p) (pySub st.T_inf (.expr e)))) 0 position))) := by
    simp only [Fin_1D_Model.get_heat_transfer, hL, hsol]
  refine ⟨?_, ?_, ?_, ?_⟩
  · intro hp0
    rw [key, if_neg hnot, if_pos hp0]
  · intro hppos
    rw [key, if_neg hnot, if_neg (ne_of_gt hppos)]
  · rw [evalE_toExpr_pyMul, evalE_toExpr_pyMul, evalE_toExpr_pySub]
    rfl
  · intro v
    simp only [pv]
    rw [evalE_toExpr_pyMul, evalE_toExpr_pyMul]

/-- Witness for C2: applies the theorem to the concrete solved model
`stSolved` at position 1/2, discharging the range hypotheses. -/
theorem get_heat_transfer_formulas_witness :
    stSolved.get_heat_transfer 1 =
      .ok ([], some (.integ
        (toExpr (pyMul (pyMul stSolved.h stSolved.p)
          (pySub stSolved.T_inf (.expr (.sym xName))))) 0 1)) := by
  have h := get_heat_transfer_formulas stSolved 1 (.sym xName) 1
      (fun _ => 0) (fun _ _ => 0) rfl rfl (by norm_num) (by norm_num)
  exact h.2.1 (by norm_num)

/-- C3 counterexample: at the unsupported boundary-condition name
`bogus`, with concrete oracles agreeing with sympy on the empty system,
`solve` reports the error but then overwrites the unsolved sentinel with
the general solution, so the solver state does not remain unchanged. -/
theorem solve_unsupported_bc_counterexample :
    stFresh.T_sol = .num 0
    ∧ (stFresh.solve dsolveConst solverEmpty bcBogus 0).1.T_sol = .expr (.sym c1Name)
    ∧ (stFresh.solve dsolveConst solverEmpty bcBogus 0).1.T_sol ≠ stFresh.T_sol
    ∧ (stFresh.solve dsolveConst solverEmpty bcBogus 0).2 =
        [.unsupportedBoundaryCondition, .modelSolved] := by
  refine ⟨rfl, rfl, ?_, rfl⟩
  intro hcontra
  exact absurd hcontra (by decide)

/-- C3 amended: for every model and boundary-condition name outside the
four supported literals, `solve` prints the unsupported-boundary-
condition message but does not leave the state unchanged: since sympy
`solve([])` returns the empty substitution, it stores the general
solution returned by `dsolve` (integration constants unpinned) in
`T_sol`, and then prints `Model solved.` as if it had succeeded. -/
theorem solve_unsupported_bc_mutates
    (dsolveO : Expr → Expr) (solverO : List Expr → List (String × Expr))
    (st : Fin_1D_Model) (bc : String) (tip : ℚ)
    (hbc : bc ∉ [bc_tip_convection, bc_infinitely_long_fin, bc_adiabatic_tip,
      bc_tip_defined_temperature])
    (hsolver : solverO [] = []) :
    (st.solve dsolveO solverO bc tip).2 =
        [.unsupportedBoundaryCondition, .modelSolved]
    ∧ (st.solve dsolveO solverO bc tip).1.T_sol =
        .expr (dsolveO (finEquation st)) := by
  simp only [List.mem_cons, List.not_mem_nil, or_false, not_or] at hbc
  obtain ⟨h1, h2, h3, h4⟩ := hbc
  have hd : solveDispatch st (dsolveO (finEquation st)) bc tip =
      (dsolveO (finEquation st), [], [.unsupportedBoundaryCondition]) := by
    unfold solveDispatch
    rw [if_neg h1, if_neg h2, if_neg h3, if_neg h4]
  simp [Fin_1D_Model.solve, hd, hsolver, substList]

/-- Witness for C3: applies the amended theorem at the concrete
unsupported name `bogus` with concrete oracles, discharging both
hypotheses. -/
theorem solve_unsupported_bc_mutates_witness :
    (stFresh.solve dsolveConst solverEmpty bcBogus 0).2 =
        [Printed.unsupportedBoundaryCondition, Printed.modelSolved]
    ∧ (stFresh.solve dsolveConst solverEmpty bcBogus 0).1.T_sol =
        .expr (dsolveConst (finEquation stFresh)) :=
  solve_unsupported_bc_mutates dsolveConst solverEmpty stFresh bcBogus 0
    (by decide) rfl

/-- C4 counterexample: on the freshly constructed model `stFresh` (whose
`T_sol` is still the unsolved sentinel 0), `get_heat_transfer` at
position 1/2 returns a value (the inert integral of `h*p*(T_env − 0)`)
instead of failing, and `get_temperature` fails with `AttributeError`,
not with any ModelNotSolved error: no such error exists in the code. -/
theorem query_before_solve_counterexample :
    stFresh.get_heat_transfer 1 =
      .ok ([], some (.integ (Expr.num 0) 0 1))
    ∧ stFresh.get_temperature 1 = .error .attributeError := by
  constructor
  · have hv : (1 * 1 * (0 - 0) : ℚ) = 0 := by norm_num
    show (Except.ok ([], some (HeatRet.integ (Expr.num (1 * 1 * (0 - 0))) 0 1)) :
      Except PyError (List Printed × Option HeatRet)) = _
    rw [hv]
  · rfl

/-- C4 amended: on a model whose `T_sol` still holds the unsolved
sentinel 0, queries do not fail with a ModelNotSolved error:
`get_temperature` (in range) and `get_heat_transfer` at position 0 raise
`AttributeError` because the integer sentinel has no `subs`/`diff`
method, while `get_heat_transfer` at any position in (0, L] silently
returns the integral value built from the sentinel instead of failing. -/
theorem query_before_solve_behavior
    (st : Fin_1D_Model) (l position : ℚ)
    (hsol : st.T_sol = .num 0) (hL : st.L = .num l)
    (h0 : 0 ≤ position) (hl : position ≤ l) :
    st.get_temperature position = .error .attributeError
    ∧ st.get_heat_transfer 0 = .error .attributeError
    ∧ (0 < position →
        st.get_heat_transfer position =
          .ok ([], some (.integ
            (toExpr (pyMul (pyMul st.h st.p) (pySub st.T_inf (.num 0)))) 0 position))) := by
  have hle0 : (0 : ℚ) ≤ l := le_trans h0 hl
  have hnot : ¬(position > l ∨ position < 0) := by
    push_neg
    exact ⟨hl, h0⟩
  have hnot0 : ¬((0 : ℚ) > l ∨ (0 : ℚ) < 0) := by
    push_neg
    exact ⟨hle0, le_refl 0⟩
  refine ⟨?_, ?_, ?_⟩
  · have hngt : ¬ position > l := not_lt.2 hl
    have hnlt : ¬ position < 0 := not_lt.2 h0
    simp [Fin_1D_Model.get_temperature, hL, hsol, hngt, hnlt]
  · simp [Fin_1D_Model.get_heat_transfer, hL, hsol, hnot0, hle0]
  · intro hppos
    have hne : position ≠ 0 := ne_of_gt hppos
    simp [Fin_1D_Model.get_heat_transfer, hL, hsol, hnot, hne]

/-- Witness for C4: applies the amended theorem to `stFresh` at position
1/2, discharging the hypotheses. -/
theorem query_before_solve_behavior_witness :
    stFresh.get_temperature 1 = .error .attributeError
    ∧ stFresh.get_heat_transfer 0 = .error .attributeError := by
  have h := query_before_solve_behavior stFresh 1 1 rfl rfl
    (by norm_num) (by norm_num)
  exact ⟨h.1, h.2.1⟩

theorem arange_thousand (l : ℚ) (hl : 0 < l) :
    arange 0 l (l / 1000) =
      (List.range 1000).map (fun i : ℕ => (i : ℚ) * (l / 1000)) := by
  have hstep : (l - 0) / (l / 1000) = 1000 := by
    rw [sub_zero, div_div_eq_mul_div, mul_comm, mul_div_assoc,
      div_self (ne_of_gt hl), mul_one]
  have hc : (⌈((1000 : ℚ))⌉).toNat = 1000 := by
    rw [show ((1000 : ℚ)) = ((1000 : ℕ) : ℚ) by norm_num, Int.ceil_natCast]
    rfl
  unfold arange
  rw [if_pos (by positivity), hstep, hc]
  simp only [zero_add]

/-- C5 counterexample: on the concrete solved model `stSolved`,
`get_temperature_profile` returns None — not a sequence of (position,
temperature) pairs — and itself performs the rendering (figure creation,
plot call, draw), contradicting the claim that it returns the samples as
data without rendering. -/
theorem temperature_profile_counterexample :
    stSolved.get_temperature_profile =
      .ok ([.newFigure, .plotLine (arange 0 1 (1 / 1000)) (.expr (.sym xName)),
            .drawCall], none) := rfl

/-- C5 amended: for every solved model with numeric positive length,
`get_temperature_profile` computes 1000 sample positions evenly spaced
over [0, L) (the i-th is i·L/1000 and every sample lies in [0, L)), but
instead of returning them as data it plots the lambdified solution
against them and calls draw itself, returning None to the caller. -/
theorem temperature_profile_renders
    (st : Fin_1D_Model) (l : ℚ) (e : Expr)
    (hL : st.L = .num l) (hl : 0 < l) (hsol : st.T_sol = .expr e) :
    st.get_temperature_profile =
      .ok ([.newFigure, .plotLine (arange 0 l (l / 1000)) (.expr e), .drawCall], none)
    ∧ (arange 0 l (l / 1000)).length = 1000
    ∧ (∀ i : ℕ, i < 1000 → (arange 0 l (l / 1000)).getD i 0 = (i : ℚ) * (l / 1000))
    ∧ (∀ q ∈ arange 0 l (l / 1000), 0 ≤ q ∧ q < l) := by
  have ha := arange_thousand l hl
  refine ⟨?_, ?_, ?_, ?_⟩
  · simp only [Fin_1D_Model.get_temperature_profile, hL, hsol]
  · rw [ha]
    simp
  · intro i hi
    rw [ha]
    rw [List.getD_eq_getElem?_getD, List.getElem?_map, List.getElem?_range hi]
    rfl
  · intro q hq
    rw [ha] at hq
    obtain ⟨i, hi, rfl⟩ := List.mem_map.mp hq
    rw [List.mem_range] at hi
    show (0 : ℚ) ≤ (i : ℚ) * (l / 1000) ∧ (i : ℚ) * (l / 1000) < l
    constructor
    · positivity
    · have hcast : (i : ℚ) < 1000 := by exact_mod_cast hi
      calc (i : ℚ) * (l / 1000) < 1000 * (l / 1000) :=
            mul_lt_mul_of_pos_right hcast (by positivity)
        _ = l := by field_simp

/-- Witness for C5: applies the amended theorem to `stSolved`,
discharging the hypotheses at length 1. -/
theorem temperature_profile_renders_witness :
    stSolved.get_temperature_profile =
      .ok ([.newFigure, .plotLine (arange 0 1 (1 / 1000)) (.expr (.sym xName)),
            .drawCall], none)
    ∧ (arange 0 1 ((1 : ℚ) / 1000)).length = 1000 := by
  have h := temperature_profile_renders stSolved 1 (.sym xName) rfl (by norm_num) rfl
  exact ⟨h.1, h.2.1⟩

/-- C6: for every resistance specification with positive area and
thermal coefficient, `_thermal_resistance_1D_calculations` returns
1/(area·coeff) for contact, convection and radiation, length/(area·coeff)
for conduction-axial, ln(R_outer/R_inner)/(coeff·angle·length) for
conduction-cylinder_radial, and
(R_outer − R_inner)/(R_outer·R_inner·4π·coeff) for
conduction-sphere_radial; in particular a contact spec with area 2 and
coefficient 5 gives 0.1, and a conduction-axial spec with area 1,
coefficient 10 and length 2 gives 0.2. -/
theorem thermal_resistance_formulas
    (lnf : ℚ → ℚ) (piv : ℚ) (area tc len ang ri ro : ℚ)
    (harea : 0 < area) (htc : 0 < tc) :
    thermal_resistance_1D_calculations lnf piv mech_contact dir_none area tc
        ⟨some len, some ang, some ri, some ro⟩ = .ok (some (1 / (area * tc)))
    ∧ thermal_resistance_1D_calculations lnf piv mech_convection dir_none area tc
        ⟨some len, some ang, some ri, some ro⟩ = .ok (some (1 / (area * tc)))
    ∧ thermal_resistance_1D_calculations lnf piv mech_radiation dir_none area tc
        ⟨some len, some ang, some ri, some ro⟩ = .ok (some (1 / (area * tc)))
    ∧ thermal_resistance_1D_calculations lnf piv mech_conduction dir_axial area tc
        ⟨some len, some ang, some ri, some ro⟩ = .ok (some (len / (area * tc)))
    ∧ thermal_resistance_1D_calculations lnf piv mech_conduction dir_cylinder_radial
        area tc ⟨some len, some ang, some ri, some ro⟩ =
        .ok (some (lnf (ro / ri) / (tc * ang * len)))
    ∧ thermal_resistance_1D_calculations lnf piv mech_conduction dir_sphere_radial
        area tc ⟨some len, some ang, some ri, some ro⟩ =
        .ok (some ((ro - ri) / (ro * ri * 4 * piv * tc)))
    ∧ thermal_resistance_1D_calculations lnf piv mech_contact dir_none 2 5
        ⟨none, none, none, none⟩ = .ok (some 0.1)
    ∧ thermal_resistance_1D_calculations lnf piv mech_conduction dir_axial 1 10
        ⟨some 2, none, none, none⟩ = .ok (some 0.2) := by
  refine ⟨rfl, rfl, rfl, rfl, ?_, ?_, ?_, ?_⟩
  · have hcyl : (1 / (tc * ang * len)) * lnf (ro / ri) =
        lnf (ro / ri) / (tc * ang * len) := by
      rw [one_div, inv_mul_eq_div]
    show (Except.ok (some ((1 / (tc * ang * len)) * lnf (ro / ri))) :
      Except PyError (Option ℚ)) = _
    rw [hcyl]
  · have hsp : ((ro - ri) / (ro * ri)) / (4 * piv * tc) =
        (ro - ri) / (ro * ri * 4 * piv * tc) := by
      rw [div_div]
      congr 1
      ring
    show (Except.ok (some (((ro - ri) / (ro * ri)) / (4 * piv * tc))) :
      Except PyError (Option ℚ)) = _
    rw [hsp]
  · show (Except.ok (some ((1 : ℚ) / (2 * 5))) : Except PyError (Option ℚ)) = _
    norm_num
  · show (Except.ok (some ((2 : ℚ) / (1 * 10))) : Except PyError (Option ℚ)) = _
    norm_num

/-- Witness for C6: applies the theorem at concrete positive inputs. -/
theorem thermal_resistance_formulas_witness :
    thermal_resistance_1D_calculations id 1 mech_contact dir_none 2 5
        ⟨some 2, some 1, some 1, some 2⟩ = .ok (some (1 / (2 * 5))) := by
  have h := thermal_resistance_formulas id 1 2 5 2 1 1 2 (by norm_num) (by norm_num)
  exact h.1

/-- C7 counterexample: on the solved model `stSolved` (L = 1), the
temperature query at position 2 > L raises `AttributeError` rather than
reporting a PositionOutOfRange error, the query at position −1 prints a
message and returns None rather than failing, and `get_heat_transfer`
prints the same single message for both out-of-range sides, so the two
cases are not reported as distinct errors. -/
theorem position_out_of_range_counterexample :
    stSolved.get_temperature 2 = .error .attributeError
    ∧ stSolved.get_temperature (-1) = .ok ([.negativePosition], none)
    ∧ stSolved.get_heat_transfer 2 = .ok ([.positionOutOfFin], none)
    ∧ stSolved.get_heat_transfer (-1) = .ok ([.positionOutOfFin], none) := by
  exact ⟨rfl, rfl, rfl, rfl⟩

/-- C7 amended: out-of-range queries are not typed PositionOutOfRange
errors: for position > L `get_temperature` raises `AttributeError`
(the message formatting reads the undefined attribute `length`), for
position < 0 it prints a message and returns None, and
`get_heat_transfer` prints one identical message for both out-of-range
sides and returns None, leaving the two cases undistinguished there. -/
theorem position_out_of_range_behavior
    (st : Fin_1D_Model) (l position : ℚ) (hL : st.L = .num l) :
    (position > l → st.get_temperature position = .error .attributeError)
    ∧ (position < 0 → position ≤ l →
        st.get_temperature position = .ok ([.negativePosition], none))
    ∧ (position > l ∨ position < 0 →
        st.get_heat_transfer position = .ok ([.positionOutOfFin], none)) := by
  have hattr : finHasLengthAttr = false := rfl
  refine ⟨fun hpos => ?_, fun hneg hle => ?_, fun hout => ?_⟩
  · simp [Fin_1D_Model.get_temperature, hL, hpos, hattr]
  · have hngt : ¬ position > l := not_lt.2 hle
    simp [Fin_1D_Model.get_temperature, hL, hngt, hneg]
  · simp only [Fin_1D_Model.get_heat_transfer, hL, if_pos hout]

/-- Witness for C7: applies the amended theorem to `stSolved` at the
out-of-range position 2. -/
theorem position_out_of_range_behavior_witness :
    stSolved.get_temperature 2 = .error .attributeError
    ∧ stSolved.get_heat_transfer 2 = .ok ([.positionOutOfFin], none) := by
  have h := position_out_of_range_behavior stSolved 1 2 rfl
  exact ⟨h.1 (by norm_num), h.2.2 (Or.inl (by norm_num))⟩

/-- C8 counterexample: a conduction-cylinder_radial specification with
R_outter = 1 ≤ R_inner = 2, and a conduction-axial specification with
negative length, both make `_thermal_resistance_1D_calculations` return
a value instead of failing: the code performs no parameter validation
and no InvalidParameter error exists in the module. -/
theorem resistance_no_validation_counterexample :
    thermal_resistance_1D_calculations (fun _ => 0) 0 mech_conduction
        dir_cylinder_radial 1 1 ⟨some 1, some 1, some 2, some 1⟩ = .ok (some 0)
    ∧ thermal_resistance_1D_calculations (fun _ => 0) 0 mech_conduction
        dir_axial 1 1 ⟨some (-1), none, none, none⟩ = .ok (some (-1)) := by
  constructor
  · show (Except.ok (some ((1 / ((1 : ℚ) * 1 * 1)) * (0 : ℚ))) :
      Except PyError (Option ℚ)) = _
    simp only [Except.ok.injEq, Option.some.injEq]
    norm_num
  · show (Except.ok (some ((-1 : ℚ) / (1 * 1))) : Except PyError (Option ℚ)) = _
    simp only [Except.ok.injEq, Option.some.injEq]
    norm_num

/-- C8 amended: `_thermal_resistance_1D_calculations` performs no
validation of the conduction parameters: for specifications with
R_outter ≤ R_inner and strictly negative angle and length — cases where
the Python divisions are defined — it still returns the corresponding
formula value (a zero or negative resistance) rather than failing with a
distinct InvalidParameter error; no such error exists in the module.  At
exactly zero angle or length the code instead raises an untyped
ZeroDivisionError, a case the totalized ℚ division of the embedding does
not model, so the hypotheses here keep every denominator provably
nonzero (the last two conjuncts record this). -/
theorem resistance_no_validation
    (lnf : ℚ → ℚ) (piv area tc len ang ri ro : ℚ)
    (harea : 0 < area) (htc : 0 < tc) (hang : ang < 0) (hlen : len < 0)
    (hro : ro ≤ ri) :
    thermal_resistance_1D_calculations lnf piv mech_conduction dir_cylinder_radial
        area tc ⟨some len, some ang, some ri, some ro⟩ =
      .ok (some ((1 / (tc * ang * len)) * lnf (ro / ri)))
    ∧ thermal_resistance_1D_calculations lnf piv mech_conduction dir_axial
        area tc ⟨some len, some ang, some ri, some ro⟩ =
      .ok (some (len / (area * tc)))
    ∧ tc * ang * len ≠ 0
    ∧ area * tc ≠ 0 := by
  have h1 : tc * ang < 0 := mul_neg_of_pos_of_neg htc hang
  have h2 : 0 < tc * ang * len := mul_pos_of_neg_of_neg h1 hlen
  exact ⟨rfl, rfl, ne_of_gt h2, ne_of_gt (mul_pos harea htc)⟩

/-- Witness for C8: applies the amended theorem at concrete inputs with
angle = length = −1 and R_outter = 1 ≤ R_inner = 2, discharging every
hypothesis. -/
theorem resistance_no_validation_witness :
    thermal_resistance_1D_calculations (fun _ => 1) 1 mech_conduction
        dir_cylinder_radial 1 1 ⟨some (-1), some (-1), some 2, some 1⟩ =
      .ok (some (1 / ((1 : ℚ) * (-1) * (-1)) * 1)) := by
  have h := resistance_no_validation (fun _ => 1) 1 1 1 (-1) (-1) 2 1
    (by norm_num) (by norm_num) (by norm_num) (by norm_num) (by norm_num)
  exact h.1

/-- C9 (code bug): the constructor documentation promises that constant
parameters may be given as strings of the constant, and the claim
requires numeric and string construction to agree, but the module never
imports `sympify`: `_check_data` on any string raises `NameError`, so
construction with a string parameter fails while the same numeric
construction succeeds, making the round trip impossible. -/
theorem string_parameter_raises_name_error :
    (moduleGlobalNames.contains sympifyName) = false
    ∧ check_data_value (.pstr str3) = .error .nameError
    ∧ check_data_value (.pnum 3) = .ok (.num 3)
    ∧ Fin_1D_Model.init ⟨.pstr str3, .pnum 1, .pnum 1, .pnum 0⟩
        ⟨.pnum 1, .pnum 1, .pnum 1⟩ = .error .nameError
    ∧ Fin_1D_Model.init ⟨.pnum 3, .pnum 1, .pnum 1, .pnum 0⟩
        ⟨.pnum 1, .pnum 1, .pnum 1⟩ =
        .ok { k := .num 3, h := .num 1, T_base := .num 1, T_inf := .num 0,
              A := .num 1, p := .num 1, L := .num 1, Lc := .num 0,
              T_sol := .num 0 } := by
  exact ⟨rfl, rfl, rfl, rfl, rfl⟩

/-- C10: for every model with numeric length, `get_temperature` at a
position strictly greater than L reaches the branch that reads the
attribute `length`, which no operation of the class ever defines — the
constructor stores the length under `L` — so the query raises
`AttributeError` instead of completing the documented out-of-range
report. -/
theorem get_temperature_reads_undefined_length
    (st : Fin_1D_Model) (l position : ℚ)
    (hL : st.L = .num l) (hgt : position > l) :
    st.get_temperature position = .error .attributeError
    ∧ finHasLengthAttr = false
    ∧ lengthAttrName ∉ finInstanceAttrs
    ∧ lAttrName ∈ finInstanceAttrs := by
  have hattr : finHasLengthAttr = false := rfl
  refine ⟨?_, rfl, by decide, by decide⟩
  simp [Fin_1D_Model.get_temperature, hL, hgt, hattr]

/-- Witness for C10: applies the theorem to `stSolved` at position 2,
discharging the hypotheses. -/
theorem get_temperature_reads_undefined_length_witness :
    stSolved.get_temperature 2 = .error .attributeError
    ∧ finHasLengthAttr = false := by
  have h := get_temperature_reads_undefined_length stSolved 1 2 rfl (by norm_num)
  exact ⟨h.1, h.2.1⟩

end Transcalmod
